import Mathlib

/-!
Shallow embedding of the trading-state simulation engine of
`soxl_quant_system.py` (class `SOXLQuantSystem`), covering:

* the trading calendar (`is_market_closed`, `is_trading_day`);
* the regime (mode) classifier (`determine_mode`);
* the capital and position ledger (`calculate_position_size`,
  `can_buy_next_round`, `execute_buy`, `check_sell_conditions`,
  `execute_sell`, round-counter contraction, capital rebalancing);
* the weekly-RSI resolution step of the backtest loop;
* the drawdown analyzer (`calculate_mdd`).

Modelling conventions: Python floats are embedded as `ℚ` (exact
arithmetic over the same formulas); `datetime` dates are embedded as
serial day numbers `ℕ` with day 0 a Monday, so that Python's
`date.weekday()` is `d % 7` and the weekend test `weekday() >= 5`
is `d % 7 ≥ 5`; the `us_holidays` list of date strings is embedded as
the corresponding list of serial day numbers; Python `int(x)` is
`pyInt` (truncation toward zero); dict-shaped records become
structures holding the fields the embedded code reads or writes.
-/

/-- Trading regime: `"SF"` (safe) or `"AG"` (aggressive) in the source. -/
inductive Mode where
  | SF : Mode
  | AG : Mode
deriving DecidableEq, Repr

/-- Parameter set of one regime (`sf_config` / `ag_config` dicts). -/
structure ModeConfig where
  buy_threshold : ℚ
  sell_threshold : ℚ
  max_hold_days : ℕ
  split_count : ℕ
  split_ratios : List ℚ
deriving DecidableEq, Repr

/-- One executed buy lot (a dict in `self.positions`). -/
structure Position where
  round : ℕ
  buy_date : ℕ
  buy_price : ℚ
  shares : ℤ
  amount : ℚ
  mode : Mode
deriving DecidableEq, Repr

/-- Instance state of `SOXLQuantSystem` used by the ledger operations. -/
structure TradingState where
  sf_config : ModeConfig
  ag_config : ModeConfig
  current_mode : Mode
  us_holidays : List ℕ
  positions : List Position
  current_round : ℕ
  available_cash : ℚ
  current_investment_capital : ℚ
  trading_days_count : ℕ
deriving DecidableEq, Repr

/-- Python `int(x)`: truncation toward zero. -/
def pyInt (q : ℚ) : ℤ := if 0 ≤ q then ⌊q⌋ else -⌊-q⌋

/-- Source `is_market_closed` (lines 412-429): true for Saturday/Sunday
(`weekday() >= 5`) and for dates in the `us_holidays` list. -/
def is_market_closed (hols : List ℕ) (d : ℕ) : Bool :=
  if d % 7 ≥ 5 then true
  else if d ∈ hols then true
  else false

/-- Source `is_trading_day` (lines 778-795): false for Saturday/Sunday
and for dates in the `us_holidays` list, true otherwise. -/
def is_trading_day (hols : List ℕ) (d : ℕ) : Bool :=
  if d % 7 ≥ 5 then false
  else if d ∈ hols then false
  else true

/-- Source `determine_mode` (lines 603-636), the total part after the
`None` check: `current_rsi` is the one-week-ago (newer) reading and
`prev_rsi` the two-weeks-ago (older) reading. -/
def determine_mode (current_rsi prev_rsi : ℚ) (prev_mode : Mode) : Mode :=
  if (prev_rsi > 65 ∧ prev_rsi > current_rsi) ∨
     (40 < prev_rsi ∧ prev_rsi < 50 ∧ prev_rsi > current_rsi) ∨
     (prev_rsi ≥ 50 ∧ current_rsi < 50) then Mode.SF
  else if (prev_rsi < 50 ∧ prev_rsi < current_rsi ∧ current_rsi > 50) ∨
          (50 < prev_rsi ∧ prev_rsi < 60 ∧ prev_rsi < current_rsi) ∨
          (prev_rsi < 35 ∧ prev_rsi < current_rsi) then Mode.AG
  else prev_mode

/-- Rendering of an optional reading inside a Python f-string:
`None` prints as `"None"`. -/
def optFloatStr (o : Option ℚ) : String :=
  match o with
  | none => "None"
  | some q => toString q

/-- Source `determine_mode` including its input-validation guard
(lines 599-601): a missing reading raises `ValueError`, embedded as
`Except.error` with the source's message. -/
def determine_mode_py (current_rsi prev_rsi : Option ℚ) (prev_mode : Mode) :
    Except String Mode :=
  match current_rsi, prev_rsi with
  | some c, some p => Except.ok (determine_mode c p prev_mode)
  | c, p =>
      Except.error ("RSI 데이터가 없습니다. current_rsi: " ++ optFloatStr c ++
        ", prev_rsi: " ++ optFloatStr p)

/-- Source `get_current_config` (lines 701-703). -/
def get_current_config (st : TradingState) : ModeConfig :=
  if st.current_mode = Mode.SF then st.sf_config else st.ag_config

/-- Source `calculate_position_size` (lines 724-741). -/
def calculate_position_size (st : TradingState) (round_num : ℕ) : ℚ :=
  let config := get_current_config st
  if round_num ≤ config.split_ratios.length then
    st.current_investment_capital * config.split_ratios.getD (round_num - 1) 0
  else 0

/-- Source `can_buy_next_round` (lines 797-810). -/
def can_buy_next_round (st : TradingState) : Bool :=
  let config := get_current_config st
  if st.current_round > config.split_count then false
  else if st.available_cash < calculate_position_size st st.current_round then false
  else true

/-- Source `execute_buy` (lines 812-859). Returns the Python `bool`
result together with the post-call instance state. -/
def execute_buy (st : TradingState) (buy_price : ℚ) (current_date : ℕ) :
    Bool × TradingState :=
  if ¬ can_buy_next_round st then (false, st)
  else
    let target_amount := calculate_position_size st st.current_round
    let actual_amount :=
      if target_amount > st.available_cash then st.available_cash else target_amount
    let shares : ℤ := pyInt (actual_amount / buy_price)
    let final_amount : ℚ := (shares : ℚ) * buy_price
    if final_amount ≤ 0 then (false, st)
    else
      (true,
        { st with
          positions := st.positions ++
            [⟨st.current_round, current_date, buy_price, shares, final_amount,
              st.current_mode⟩],
          available_cash := st.available_cash - final_amount,
          current_round := st.current_round + 1 })

/-- Holding-period loop body of `check_sell_conditions` (lines 877-882):
counts trading days strictly after `temp` over `n` calendar-day steps. -/
def hold_days_go (hols : List ℕ) : ℕ → ℕ → ℕ
  | _, 0 => 0
  | temp, n + 1 =>
      (if is_trading_day hols (temp + 1) then 1 else 0) + hold_days_go hols (temp + 1) n

/-- Holding duration in trading days between `buy_date` (exclusive) and
`current_date` (inclusive), as computed by the `while temp_date <
current_date` loop of `check_sell_conditions`. -/
def hold_days (hols : List ℕ) (buy_date current_date : ℕ) : ℕ :=
  hold_days_go hols buy_date (current_date - buy_date)

/-- One element of the `sell_positions` list built by
`check_sell_conditions`. -/
structure SellIntent where
  position : Position
  reason : String
  sell_price : ℚ
deriving DecidableEq, Repr

/-- Loop of source `check_sell_conditions` (lines 861-912) over the open
positions, in order. -/
def check_sell_go (st : TradingState) (daily_close : ℚ) (current_date : ℕ) :
    List Position → List SellIntent
  | [] => []
  | position :: rest =>
      let hd := hold_days st.us_holidays position.buy_date current_date
      let position_config :=
        if position.mode = Mode.SF then st.sf_config else st.ag_config
      let sell_price := position.buy_price * (1 + position_config.sell_threshold / 100)
      if daily_close ≥ sell_price then
        ⟨position, "목표가 도달", daily_close⟩ ::
          check_sell_go st daily_close current_date rest
      else if hd > position_config.max_hold_days then
        ⟨position, "보유기간 초과 (" ++ toString (hd + 1) ++ "일)", daily_close⟩ ::
          check_sell_go st daily_close current_date rest
      else check_sell_go st daily_close current_date rest

/-- Source `check_sell_conditions` (lines 861-912): `daily_close` is
`row['Close']`. -/
def check_sell_conditions (st : TradingState) (daily_close : ℚ)
    (current_date : ℕ) : List SellIntent :=
  check_sell_go st daily_close current_date st.positions

/-- Source `execute_sell` (lines 915-943): removes the position, credits
the proceeds, and returns `(proceeds, sold_round)` beside the new state. -/
def execute_sell (st : TradingState) (sell_info : SellIntent) :
    TradingState × ℚ × ℕ :=
  let position := sell_info.position
  let proceeds := (position.shares : ℚ) * sell_info.sell_price
  ({ st with
      positions := st.positions.erase position,
      available_cash := st.available_cash + proceeds },
    proceeds, position.round)

/-- Sell batch of one backtest day (lines 1380-1406 of `run_backtest`):
execute every recommended sell, then contract the round counter by the
number of sold lots, floored at 1, when any lot was sold. -/
def process_day_sells (st : TradingState) (intents : List SellIntent) :
    TradingState :=
  let st1 := intents.foldl (fun s si => (execute_sell s si).1) st
  if intents = [] then st1
  else { st1 with current_round := max 1 (st1.current_round - intents.length) }

/-- Total held share count `sum(pos["shares"] for pos in positions)`. -/
def total_shares (st : TradingState) : ℤ :=
  (st.positions.map Position.shares).sum

/-- Capital-rebalancing prefix of one backtest-loop iteration
(lines 1303-1317 of `run_backtest`): on a trading day the counter is
incremented, and on every 10th trading day the investment-capital base
is reset to cash plus mark-to-market of the open positions. -/
def trading_day_update (st : TradingState) (current_date : ℕ)
    (current_price : ℚ) : TradingState :=
  if is_trading_day st.us_holidays current_date then
    let st1 := { st with trading_days_count := st.trading_days_count + 1 }
    if st1.trading_days_count % 10 = 0 ∧ st1.trading_days_count > 0 then
      { st1 with
        current_investment_capital :=
          st1.available_cash + (total_shares st1 : ℚ) * current_price }
    else st1
  else st

/-- Weekly-RSI resolution step of `run_backtest` (lines 1334-1345): on a
new week, resolve the one-week-ago and two-weeks-ago readings for the
week-ending Friday; if either is unresolved, abort the whole run with
the source's error message, otherwise classify the new mode.
`get_rsi` embeds `get_rsi_from_reference(date, rsi_ref_data)`. -/
def run_backtest_week_rsi_update (this_week_friday : ℕ)
    (get_rsi : ℕ → Option ℚ) (current_mode : Mode) : Except String Mode :=
  let prev_week_rsi := get_rsi (this_week_friday - 7)
  let two_weeks_ago_rsi := get_rsi (this_week_friday - 14)
  match prev_week_rsi, two_weeks_ago_rsi with
  | some p, some t => Except.ok (determine_mode p t current_mode)
  | p, t =>
      Except.error ("RSI 데이터가 없습니다. 1주전 RSI: " ++ optFloatStr p ++
        ", 2주전 RSI: " ++ optFloatStr t)

/-- Fields of a daily record read by `calculate_mdd`. -/
structure MddRecord where
  date : String
  total_assets : ℚ
deriving DecidableEq, Repr

/-- Result dict of `calculate_mdd`. -/
structure MddInfo where
  mdd_percent : ℚ
  mdd_date : String
  mdd_value : ℚ
  mdd_peak_date : String
  overall_peak_date : String
  overall_peak_value : ℚ
deriving DecidableEq, Repr

/-- Loop state of `calculate_mdd` (lines 1618-1630). -/
structure MddState where
  max_drawdown : ℚ
  mdd_peak_date : String
  mdd_date : String
  mdd_value : ℚ
  overall_max_assets : ℚ
  overall_peak_date : String
  current_peak_assets : ℚ
  current_peak_date : String
deriving DecidableEq, Repr

/-- Loop body of `calculate_mdd` (lines 1632-1652). -/
def mdd_step (s : MddState) (r : MddRecord) : MddState :=
  let current_assets := r.total_assets
  let s1 :=
    if current_assets > s.overall_max_assets then
      { s with overall_max_assets := current_assets, overall_peak_date := r.date }
    else s
  let s2 :=
    if current_assets > s1.current_peak_assets then
      { s1 with current_peak_assets := current_assets, current_peak_date := r.date }
    else s1
  if 0 < s2.current_peak_assets then
    let drawdown := (s2.current_peak_assets - current_assets) / s2.current_peak_assets * 100
    if drawdown > s2.max_drawdown then
      { s2 with
        max_drawdown := drawdown,
        mdd_date := r.date,
        mdd_value := current_assets,
        mdd_peak_date := s2.current_peak_date }
    else s2
  else s2

/-- Source `calculate_mdd` (lines 1600-1661). -/
def calculate_mdd (daily_records : List MddRecord) : MddInfo :=
  if daily_records = [] then ⟨0, "", 0, "", "", 0⟩
  else
    let s := daily_records.foldl mdd_step ⟨0, "", "", 0, 0, "", 0, ""⟩
    ⟨s.max_drawdown, s.mdd_date, s.mdd_value, s.mdd_peak_date,
      s.overall_peak_date, s.overall_max_assets⟩

/-- Per-record drawdown percentages under a running peak seeded at
`peak`, skipping records while the running peak is not yet positive;
used to state what the single forward pass of `calculate_mdd` computes. -/
def ddList (peak : ℚ) : List ℚ → List ℚ
  | [] => []
  | a :: rest =>
      if 0 < max peak a then
        ((max peak a - a) / max peak a * 100) :: ddList (max peak a) rest
      else ddList (max peak a) rest

/-- Concrete state for the negative-price probe of `execute_buy`:
one split of ratio 1, capital base 100, cash 100, round 1. -/
def c3CexSt : TradingState :=
  ⟨⟨3.5, 1.4, 30, 1, [1]⟩,
   ⟨3.6, 3.5, 7, 8, [0.062, 0.134, 0.118, 0.148, 0.150, 0.182, 0.186, 0.020]⟩,
   Mode.SF, [], [], 1, 100, 100, 0⟩

/-- Concrete state for the documented buy scenario: capital base 10000,
split ratios `[0.5, 0.5]`, round 1, cash 10000. -/
def c3ScSt : TradingState :=
  ⟨⟨3.5, 1.4, 30, 2, [0.5, 0.5]⟩,
   ⟨3.6, 3.5, 7, 8, [0.062, 0.134, 0.118, 0.148, 0.150, 0.182, 0.186, 0.020]⟩,
   Mode.SF, [], [], 1, 10000, 10000, 0⟩

/-- Concrete state with cash (50) strictly below the round-1 position
size (100). -/
def c4WSt : TradingState :=
  ⟨⟨3.5, 1.4, 30, 1, [1]⟩,
   ⟨3.6, 3.5, 7, 8, [0.062, 0.134, 0.118, 0.148, 0.150, 0.182, 0.186, 0.020]⟩,
   Mode.SF, [], [], 1, 50, 100, 0⟩

/-- Concrete open lot bought at 100 in SF mode. -/
def c2WPos : Position := ⟨1, 0, 100, 10, 1000, Mode.SF⟩

/-- Concrete state holding `c2WPos`, whose SF parameter set has sell
threshold 1.4 and max holding period 5 trading days. -/
def c2WSt : TradingState :=
  ⟨⟨3.5, 1.4, 5, 7, [0.049, 0.127, 0.230, 0.257, 0.028, 0.169, 0.140]⟩,
   ⟨3.6, 3.5, 7, 8, [0.062, 0.134, 0.118, 0.148, 0.150, 0.182, 0.186, 0.020]⟩,
   Mode.SF, [], [c2WPos], 2, 1000, 10000, 1⟩

/-- Concrete state with round counter 3 and one open lot. -/
def c7St : TradingState :=
  ⟨⟨3.5, 1.4, 30, 7, [0.049, 0.127, 0.230, 0.257, 0.028, 0.169, 0.140]⟩,
   ⟨3.6, 3.5, 7, 8, [0.062, 0.134, 0.118, 0.148, 0.150, 0.182, 0.186, 0.020]⟩,
   Mode.SF, [], [c2WPos], 3, 1000, 10000, 0⟩

/-- Two sell intents for one day's batch. -/
def c7Intents : List SellIntent :=
  [⟨c2WPos, "목표가 도달", 101⟩, ⟨c2WPos, "목표가 도달", 101⟩]

/-- Four-day record sequence whose worst drawdown (100 → 50) happens
under an earlier peak than the overall best asset value (200). -/
def c9Example : List MddRecord :=
  [⟨"d1", 100⟩, ⟨"d2", 50⟩, ⟨"d3", 200⟩, ⟨"d4", 190⟩]

/-- C10: `is_trading_day` is the exact boolean negation of
`is_market_closed`: both classify a date as non-trading precisely when
its weekday is Saturday or Sunday or it belongs to the holiday list. -/
theorem c10_trading_day_complement (hols : List ℕ) (d : ℕ) :
    is_trading_day hols d = !(is_market_closed hols d) ∧
    (is_market_closed hols d = true ↔ (d % 7 ≥ 5 ∨ d ∈ hols)) := by
  unfold is_trading_day is_market_closed
  by_cases h1 : d % 7 ≥ 5 <;> by_cases h2 : d ∈ hols <;> simp [h1, h2]

/-- C1: for all real-valued weekly readings (`older` two weeks ago,
`newer` one week ago) and any previous regime, `determine_mode` follows
the ordered rule table: the SAFE conditions first, then the AGGRESSIVE
conditions, else the previous regime is kept. -/
theorem c1_determine_mode_rule_table (older newer : ℚ) (prev_mode : Mode) :
    determine_mode newer older prev_mode =
      if (older > 65 ∧ older > newer) ∨
         (40 < older ∧ older < 50 ∧ older > newer) ∨
         (older ≥ 50 ∧ newer < 50) then Mode.SF
      else if (older < 50 ∧ older < newer ∧ newer > 50) ∨
              (50 < older ∧ older < 60 ∧ older < newer) ∨
              (older < 35 ∧ older < newer) then Mode.AG
      else prev_mode := rfl

/-- C5: `determine_mode` fails with an input-validation error whenever
either reading is missing, for every previous regime; it never returns
a regime in that case. -/
theorem c5_classifier_raises_on_missing (current_rsi prev_rsi : Option ℚ)
    (prev_mode : Mode) (h : current_rsi = none ∨ prev_rsi = none) :
    (∃ msg, determine_mode_py current_rsi prev_rsi prev_mode = Except.error msg) ∧
    ∀ m, determine_mode_py current_rsi prev_rsi prev_mode ≠ Except.ok m := by
  rcases h with h | h <;> subst h
  · cases prev_rsi <;> simp [determine_mode_py]
  · cases current_rsi <;> simp [determine_mode_py]

/-- Witness for C5 at a concrete missing newer reading. -/
theorem c5_witness :
    (∃ msg, determine_mode_py none (some 45) Mode.SF = Except.error msg) ∧
    ∀ m, determine_mode_py none (some 45) Mode.SF ≠ Except.ok m :=
  c5_classifier_raises_on_missing none (some 45) Mode.SF (Or.inl rfl)

/-- Executing a sell never touches the round counter. -/
theorem foldl_execute_sell_round (intents : List SellIntent) (st : TradingState) :
    (intents.foldl (fun s si => (execute_sell s si).1) st).current_round =
      st.current_round := by
  induction intents generalizing st with
  | nil => rfl
  | cons i t ih => simpa [execute_sell] using ih ((execute_sell st i).1)

/-- C7: after a day's batch of sells, the round counter is the old
counter minus the number of lots sold, floored at 1. -/
theorem c7_round_contraction (st : TradingState) (intents : List SellIntent)
    (h : 1 ≤ st.current_round) :
    (process_day_sells st intents).current_round =
      max 1 (st.current_round - intents.length) := by
  unfold process_day_sells
  by_cases he : intents = []
  · subst he
    simp [foldl_execute_sell_round]
    omega
  · simp [he, foldl_execute_sell_round]

/-- Witness for C7: three open rounds, two lots sold, counter drops to 1. -/
theorem c7_witness :
    1 ≤ c7St.current_round ∧
    (process_day_sells c7St c7Intents).current_round =
      max 1 (c7St.current_round - c7Intents.length) :=
  ⟨by decide, c7_round_contraction c7St c7Intents (by decide)⟩

/-- C8: the capital-rebalancing step increments the trading-day counter
only on trading days, resets the investment-capital base to cash plus
mark-to-market exactly when the incremented counter is a positive
multiple of 10, and never changes cash, positions, round, or mode. -/
theorem c8_capital_rebalancing (st : TradingState) (d : ℕ) (close : ℚ) :
    (trading_day_update st d close).available_cash = st.available_cash ∧
    (trading_day_update st d close).positions = st.positions ∧
    (trading_day_update st d close).current_round = st.current_round ∧
    (trading_day_update st d close).current_mode = st.current_mode ∧
    (trading_day_update st d close).trading_days_count =
      (if is_trading_day st.us_holidays d then st.trading_days_count + 1
       else st.trading_days_count) ∧
    (trading_day_update st d close).current_investment_capital =
      (if is_trading_day st.us_holidays d ∧ (st.trading_days_count + 1) % 10 = 0
       then st.available_cash + (total_shares st : ℚ) * close
       else st.current_investment_capital) ∧
    ((st.trading_days_count + 1) % 10 = 0 ∧ 0 < st.trading_days_count + 1 ↔
      ∃ k, 0 < k ∧ st.trading_days_count + 1 = 10 * k) := by
  have hiff : (st.trading_days_count + 1) % 10 = 0 ∧ 0 < st.trading_days_count + 1 ↔
      ∃ k, 0 < k ∧ st.trading_days_count + 1 = 10 * k := by
    constructor
    · rintro ⟨hm, -⟩
      exact ⟨(st.trading_days_count + 1) / 10, by omega, by omega⟩
    · rintro ⟨k, hk, he⟩
      omega
  refine ⟨?_, ?_, ?_, ?_, ?_, ?_, hiff⟩ <;>
    unfold trading_day_update <;>
      by_cases h1 : is_trading_day st.us_holidays d <;>
        by_cases h2 : (st.trading_days_count + 1) % 10 = 0 <;>
          simp [h1, h2, total_shares]

/-- When available cash is strictly below the active round's position
size, `can_buy_next_round` is false and `execute_buy` refuses with no
state change. -/
theorem execute_buy_refused_when_cash_short (st : TradingState) (price : ℚ)
    (d : ℕ) (h : st.available_cash < calculate_position_size st st.current_round) :
    can_buy_next_round st = false ∧ execute_buy st price d = (false, st) := by
  have hcb : can_buy_next_round st = false := by
    by_cases h1 : st.current_round > (get_current_config st).split_count
    · simp [can_buy_next_round, h1]
    · simp [can_buy_next_round, h1, h]
  refine ⟨hcb, ?_⟩
  unfold execute_buy
  simp [hcb]

/-- C4 as stated is false: no state (reachable or not) with available
cash strictly between 0 and the current round's position size lets
`execute_buy` succeed, at any price. -/
theorem c4_counterexample :
    ¬ ∃ (st : TradingState) (price : ℚ) (d : ℕ),
        0 < st.available_cash ∧
        st.available_cash < calculate_position_size st st.current_round ∧
        (execute_buy st price d).1 = true := by
  rintro ⟨st, price, d, -, hlt, hsucc⟩
  rw [(execute_buy_refused_when_cash_short st price d hlt).2] at hsucc
  exact Bool.false_ne_true hsucc

/-- C4 amended: whenever available cash is strictly below
`position_size(current round)`, the buy is refused outright — the
cash-capped branch of `execute_buy` is unreachable and the round
counter is not consumed. -/
theorem c4_no_cash_capped_buy (st : TradingState) (price : ℚ) (d : ℕ)
    (h : st.available_cash < calculate_position_size st st.current_round) :
    can_buy_next_round st = false ∧ execute_buy st price d = (false, st) :=
  execute_buy_refused_when_cash_short st price d h

/-- Witness for C4 amended: cash 50, position size 100, refusal. -/
theorem c4_witness :
    c4WSt.available_cash < calculate_position_size c4WSt c4WSt.current_round ∧
    can_buy_next_round c4WSt = false ∧
    execute_buy c4WSt 100 0 = (false, c4WSt) := by
  have h : c4WSt.available_cash < calculate_position_size c4WSt c4WSt.current_round := by
    norm_num [c4WSt, calculate_position_size, get_current_config]
  exact ⟨h, c4_no_cash_capped_buy c4WSt 100 0 h⟩

/-- C3 as stated is false at a negative price: with `can_buy` true and
a floor-based share count whose cost is positive (⌊100 / -30⌋ = -4,
cost 120), `execute_buy` succeeds but deducts the truncation-based cost
(int(100 / -30) = -3, cost 90), not the floor-based one. -/
theorem c3_counterexample :
    can_buy_next_round c3CexSt = true ∧
    0 < (⌊min (calculate_position_size c3CexSt c3CexSt.current_round)
            c3CexSt.available_cash / (-30 : ℚ)⌋ : ℚ) * (-30) ∧
    (execute_buy c3CexSt (-30) 0).1 = true ∧
    (execute_buy c3CexSt (-30) 0).2.available_cash ≠
      c3CexSt.available_cash -
        (⌊min (calculate_position_size c3CexSt c3CexSt.current_round)
            c3CexSt.available_cash / (-30 : ℚ)⌋ : ℚ) * (-30) := by
  refine ⟨?_, ?_, ?_, ?_⟩
  · norm_num [c3CexSt, can_buy_next_round, calculate_position_size,
      get_current_config, List.getD]
  · norm_num [c3CexSt, calculate_position_size, get_current_config, List.getD]
  · norm_num [c3CexSt, execute_buy, can_buy_next_round, calculate_position_size,
      get_current_config, pyInt, List.getD]
  · norm_num [c3CexSt, execute_buy, can_buy_next_round, calculate_position_size,
      get_current_config, pyInt, List.getD]

/-- C3 amended: whenever `can_buy` holds, the spend target is never
cash-capped, the share count is the Python truncation `int(min(size,
cash) / price)` (which agrees with the floor whenever the quotient is
nonnegative), and with a positive fill cost the buy deducts exactly
`shares × price`, appends one position tagged with the current round
and regime, and increments the round counter; a nonpositive fill cost
is refused with no state change. -/
theorem c3_execute_buy_amended (st : TradingState) (price : ℚ) (d : ℕ)
    (hc : can_buy_next_round st = true) :
    (0 < (pyInt (min (calculate_position_size st st.current_round)
            st.available_cash / price) : ℚ) * price →
      execute_buy st price d =
        (true,
          { st with
            positions := st.positions ++
              [⟨st.current_round, d, price,
                pyInt (min (calculate_position_size st st.current_round)
                  st.available_cash / price),
                (pyInt (min (calculate_position_size st st.current_round)
                  st.available_cash / price) : ℚ) * price,
                st.current_mode⟩],
            available_cash := st.available_cash -
              (pyInt (min (calculate_position_size st st.current_round)
                st.available_cash / price) : ℚ) * price,
            current_round := st.current_round + 1 })) ∧
    ((pyInt (min (calculate_position_size st st.current_round)
        st.available_cash / price) : ℚ) * price ≤ 0 →
      execute_buy st price d = (false, st)) := by
  have hle : calculate_position_size st st.current_round ≤ st.available_cash := by
    by_cases h1 : st.current_round > (get_current_config st).split_count
    · simp [can_buy_next_round, h1] at hc
    · by_cases h2 : st.available_cash < calculate_position_size st st.current_round
      · simp [can_buy_next_round, h1, h2] at hc
      · exact not_lt.mp h2
  have hmin : min (calculate_position_size st st.current_round) st.available_cash =
      calculate_position_size st st.current_round := min_eq_left hle
  have hgt : ¬ calculate_position_size st st.current_round > st.available_cash :=
    not_lt.mpr hle
  rw [hmin]
  constructor
  · intro hpos
    unfold execute_buy
    simp [hc, hgt, not_le.mpr hpos]
  · intro hnonpos
    unfold execute_buy
    simp [hc, hgt, hnonpos]

/-- Witness for C3 amended, the documented scenario: capital base
10000, ratios `[0.5, 0.5]`, round-1 buy at price 100 with cash 10000
fills 50 shares, leaves cash 5000, and sets the round counter to 2. -/
theorem c3_witness :
    can_buy_next_round c3ScSt = true ∧
    execute_buy c3ScSt 100 0 =
      (true,
        { c3ScSt with
          positions := [⟨1, 0, 100, 50, 5000, Mode.SF⟩],
          available_cash := 5000,
          current_round := 2 }) := by
  have hc : can_buy_next_round c3ScSt = true := by
    norm_num [c3ScSt, can_buy_next_round, calculate_position_size,
      get_current_config, List.getD]
  have h := (c3_execute_buy_amended c3ScSt 100 0 hc).1
  have hsh : pyInt (min (calculate_position_size c3ScSt c3ScSt.current_round)
      c3ScSt.available_cash / 100) = 50 := by
    norm_num [c3ScSt, calculate_position_size, get_current_config, List.getD, pyInt]
  rw [hsh] at h
  refine ⟨hc, ?_⟩
  have h2 := h (by norm_num)
  rw [h2]
  norm_num [c3ScSt, Prod.ext_iff, TradingState.mk.injEq, Position.mk.injEq]

/-- C6 amended: when either required weekly reading is unresolved, the
week step of the backtest loop returns an error result (it never
continues to classification), and the error message reports the two
attempted oscillator values; it does not include the date. -/
theorem c6_week_abort_reports_values (this_week_friday : ℕ)
    (get_rsi : ℕ → Option ℚ) (current_mode : Mode)
    (h : get_rsi (this_week_friday - 7) = none ∨
      get_rsi (this_week_friday - 14) = none) :
    run_backtest_week_rsi_update this_week_friday get_rsi current_mode =
      Except.error ("RSI 데이터가 없습니다. 1주전 RSI: " ++
        optFloatStr (get_rsi (this_week_friday - 7)) ++ ", 2주전 RSI: " ++
        optFloatStr (get_rsi (this_week_friday - 14))) := by
  rcases h with h | h
  · cases h2 : get_rsi (this_week_friday - 14) <;>
      simp [run_backtest_week_rsi_update, h, h2]
  · cases h1 : get_rsi (this_week_friday - 7) <;>
      simp [run_backtest_week_rsi_update, h, h1]

/-- Witness for C6 amended at a concrete week with both readings
missing. -/
theorem c6_witness :
    run_backtest_week_rsi_update 100 (fun _ => none) Mode.SF =
      Except.error ("RSI 데이터가 없습니다. 1주전 RSI: " ++ optFloatStr none ++
        ", 2주전 RSI: " ++ optFloatStr none) :=
  c6_week_abort_reports_values 100 (fun _ => none) Mode.SF (Or.inl rfl)

/-- C6 as stated is false in its date-reporting part: two different
week dates with the same unresolved readings produce the identical
error result, so the error cannot be reporting the specific date. -/
theorem c6_counterexample :
    run_backtest_week_rsi_update 100 (fun _ => none) Mode.SF =
      Except.error "RSI 데이터가 없습니다. 1주전 RSI: None, 2주전 RSI: None" ∧
    run_backtest_week_rsi_update 200 (fun _ => none) Mode.SF =
      Except.error "RSI 데이터가 없습니다. 1주전 RSI: None, 2주전 RSI: None" ∧
    (100 : ℕ) ≠ 200 := by
  refine ⟨rfl, rfl, by norm_num⟩

/-- Membership characterization of the sell-evaluation loop: an intent
is produced for exactly the positions whose close reaches their own
sell target (reason: target reached), or else whose holding period
strictly exceeds the max-hold-days of the regime captured at
acquisition (reason: holding-period exceeded). -/
theorem check_sell_go_mem (st : TradingState) (daily_close : ℚ)
    (current_date : ℕ) (l : List Position) (i : SellIntent) :
    i ∈ check_sell_go st daily_close current_date l ↔
      ∃ p, p ∈ l ∧
        ((daily_close ≥ p.buy_price *
            (1 + (if p.mode = Mode.SF then st.sf_config else st.ag_config).sell_threshold / 100) ∧
            i = ⟨p, "목표가 도달", daily_close⟩) ∨
          (¬ daily_close ≥ p.buy_price *
              (1 + (if p.mode = Mode.SF then st.sf_config else st.ag_config).sell_threshold / 100) ∧
            hold_days st.us_holidays p.buy_date current_date >
              (if p.mode = Mode.SF then st.sf_config else st.ag_config).max_hold_days ∧
            i = ⟨p, "보유기간 초과 (" ++
              toString (hold_days st.us_holidays p.buy_date current_date + 1) ++
              "일)", daily_close⟩)) := by
  induction l with
  | nil => simp [check_sell_go]
  | cons q t ih =>
    simp only [check_sell_go]
    by_cases hy : daily_close ≥ q.buy_price *
        (1 + (if q.mode = Mode.SF then st.sf_config else st.ag_config).sell_threshold / 100)
    · rw [if_pos hy]
      simp only [List.mem_cons, ih]
      constructor
      · rintro (rfl | ⟨p, hp, hc⟩)
        · exact ⟨q, Or.inl rfl, Or.inl ⟨hy, rfl⟩⟩
        · exact ⟨p, Or.inr hp, hc⟩
      · rintro ⟨p, (rfl | hp), hc⟩
        · rcases hc with ⟨-, rfl⟩ | ⟨hn, -, -⟩
          · exact Or.inl rfl
          · exact absurd hy hn
        · exact Or.inr ⟨p, hp, hc⟩
    · rw [if_neg hy]
      by_cases hz : hold_days st.us_holidays q.buy_date current_date >
          (if q.mode = Mode.SF then st.sf_config else st.ag_config).max_hold_days
      · rw [if_pos hz]
        simp only [List.mem_cons, ih]
        constructor
        · rintro (rfl | ⟨p, hp, hc⟩)
          · exact ⟨q, Or.inl rfl, Or.inr ⟨hy, hz, rfl⟩⟩
          · exact ⟨p, Or.inr hp, hc⟩
        · rintro ⟨p, (rfl | hp), hc⟩
          · rcases hc with ⟨hyy, -⟩ | ⟨-, -, rfl⟩
            · exact absurd hyy hy
            · exact Or.inl rfl
          · exact Or.inr ⟨p, hp, hc⟩
      · rw [if_neg hz, ih]
        constructor
        · rintro ⟨p, hp, hc⟩
          exact ⟨p, List.mem_cons_of_mem q hp, hc⟩
        · rintro ⟨p, hp, hc⟩
          rcases List.mem_cons.mp hp with rfl | hpt
          · rcases hc with ⟨hyy, -⟩ | ⟨-, hdgt, -⟩
            · exact absurd hyy hy
            · exact absurd hdgt hz
          · exact ⟨p, hpt, hc⟩

/-- C2: for each open position, `check_sell_conditions` emits exactly
one intent for it — at the day's close, with its own target computed
from its fill price and the sell threshold of the regime captured at
acquisition — when the close reaches the target (reason: target
reached), or else when the holding period strictly exceeds that
regime's max-hold-days (reason: holding-period exceeded); with both
conditions the reason is target-reached, with neither there is no
intent for it. -/
theorem c2_sell_evaluation (st : TradingState) (daily_close : ℚ)
    (current_date : ℕ) (p : Position) (hp : p ∈ st.positions) (i : SellIntent) :
    (i ∈ check_sell_conditions st daily_close current_date ∧ i.position = p) ↔
      ((daily_close ≥ p.buy_price *
          (1 + (if p.mode = Mode.SF then st.sf_config else st.ag_config).sell_threshold / 100) ∧
          i = ⟨p, "목표가 도달", daily_close⟩) ∨
        (¬ daily_close ≥ p.buy_price *
            (1 + (if p.mode = Mode.SF then st.sf_config else st.ag_config).sell_threshold / 100) ∧
          hold_days st.us_holidays p.buy_date current_date >
            (if p.mode = Mode.SF then st.sf_config else st.ag_config).max_hold_days ∧
          i = ⟨p, "보유기간 초과 (" ++
            toString (hold_days st.us_holidays p.buy_date current_date + 1) ++
            "일)", daily_close⟩)) := by
  unfold check_sell_conditions
  rw [check_sell_go_mem]
  constructor
  · rintro ⟨⟨q, hq, hc⟩, hip⟩
    rcases hc with ⟨hy, rfl⟩ | ⟨hn, hdz, rfl⟩
    · subst hip
      exact Or.inl ⟨hy, rfl⟩
    · subst hip
      exact Or.inr ⟨hn, hdz, rfl⟩
  · rintro (⟨hy, rfl⟩ | ⟨hn, hdz, rfl⟩)
    · exact ⟨⟨p, hp, Or.inl ⟨hy, rfl⟩⟩, rfl⟩
    · exact ⟨⟨p, hp, Or.inr ⟨hn, hdz, rfl⟩⟩, rfl⟩

/-- Witness for C2, the documented scenario: a lot bought at 100 in SF
mode (sell threshold 1.4) with close 101.5 gets a target-reached intent
even though its holding period (7 trading days) also exceeds the
configured max-hold-days (5). -/
theorem c2_witness :
    c2WPos ∈ c2WSt.positions ∧
    (101.5 : ℚ) ≥ c2WPos.buy_price *
      (1 + (if c2WPos.mode = Mode.SF then c2WSt.sf_config else c2WSt.ag_config).sell_threshold / 100) ∧
    hold_days c2WSt.us_holidays c2WPos.buy_date 9 >
      (if c2WPos.mode = Mode.SF then c2WSt.sf_config else c2WSt.ag_config).max_hold_days ∧
    (⟨c2WPos, "목표가 도달", 101.5⟩ : SellIntent) ∈
      check_sell_conditions c2WSt 101.5 9 := by
  have hmem : c2WPos ∈ c2WSt.positions := List.mem_singleton.mpr rfl
  have hge : (101.5 : ℚ) ≥ c2WPos.buy_price *
      (1 + (if c2WPos.mode = Mode.SF then c2WSt.sf_config else c2WSt.ag_config).sell_threshold / 100) := by
    norm_num [c2WPos, c2WSt]
  have h := (c2_sell_evaluation c2WSt 101.5 9 c2WPos hmem
      ⟨c2WPos, "목표가 도달", 101.5⟩).mpr (Or.inl ⟨hge, rfl⟩)
  refine ⟨hmem, hge, by decide, h.1⟩

/-- The drawdown loop body updates the overall best assets to the
running maximum. -/
theorem mdd_step_overall (s : MddState) (r : MddRecord) :
    (mdd_step s r).overall_max_assets = max s.overall_max_assets r.total_assets := by
  unfold mdd_step
  dsimp only
  rcases lt_or_le s.overall_max_assets r.total_assets with h1 | h1
  · rw [if_pos h1]
    dsimp only
    split_ifs <;> simp [max_eq_right h1.le]
  · rw [if_neg (not_lt.mpr h1)]
    split_ifs <;> simp [max_eq_left h1]

/-- The drawdown loop body updates the running peak to the running
maximum. -/
theorem mdd_step_peak (s : MddState) (r : MddRecord) :
    (mdd_step s r).current_peak_assets =
      max s.current_peak_assets r.total_assets := by
  unfold mdd_step
  dsimp only
  rcases lt_or_le s.overall_max_assets r.total_assets with h1 | h1
  · rw [if_pos h1]
    dsimp only
    rcases lt_or_le s.current_peak_assets r.total_assets with h2 | h2
    · rw [if_pos h2]
      (try dsimp only)
      split_ifs <;> simp [max_eq_right h2.le]
    · rw [if_neg (not_lt.mpr h2)]
      (try dsimp only)
      split_ifs <;> simp [max_eq_left h2]
  · rw [if_neg (not_lt.mpr h1)]
    rcases lt_or_le s.current_peak_assets r.total_assets with h2 | h2
    · rw [if_pos h2]
      (try dsimp only)
      split_ifs <;> simp [max_eq_right h2.le]
    · rw [if_neg (not_lt.mpr h2)]
      split_ifs <;> simp [max_eq_left h2]

/-- The drawdown loop body keeps the maximum of the stored drawdown and
the current record's drawdown under the updated peak, whenever that
peak is positive. -/
theorem mdd_step_mdd (s : MddState) (r : MddRecord) :
    (mdd_step s r).max_drawdown =
      if 0 < max s.current_peak_assets r.total_assets then
        max s.max_drawdown
          ((max s.current_peak_assets r.total_assets - r.total_assets) /
            max s.current_peak_assets r.total_assets * 100)
      else s.max_drawdown := by
  unfold mdd_step
  dsimp only
  rcases lt_or_le s.overall_max_assets r.total_assets with h1 | h1 <;>
    [rw [if_pos h1]; rw [if_neg (not_lt.mpr h1)]] <;>
    (try dsimp only) <;>
    rcases lt_or_le s.current_peak_assets r.total_assets with h2 | h2
  · rw [if_pos h2]
    (try dsimp only)
    rw [max_eq_right h2.le]
    rcases lt_or_le 0 r.total_assets with h3 | h3
    · rw [if_pos h3, if_pos h3]
      split_ifs with h4
      · exact (max_eq_right h4.le).symm
      · exact (max_eq_left (not_lt.mp h4)).symm
    · rw [if_neg (not_lt.mpr h3), if_neg (not_lt.mpr h3)]
  · rw [if_neg (not_lt.mpr h2)]
    (try dsimp only)
    rw [max_eq_left h2]
    rcases lt_or_le 0 s.current_peak_assets with h3 | h3
    · rw [if_pos h3, if_pos h3]
      split_ifs with h4
      · exact (max_eq_right h4.le).symm
      · exact (max_eq_left (not_lt.mp h4)).symm
    · rw [if_neg (not_lt.mpr h3), if_neg (not_lt.mpr h3)]
  · rw [if_pos h2]
    (try dsimp only)
    rw [max_eq_right h2.le]
    rcases lt_or_le 0 r.total_assets with h3 | h3
    · rw [if_pos h3, if_pos h3]
      split_ifs with h4
      · exact (max_eq_right h4.le).symm
      · exact (max_eq_left (not_lt.mp h4)).symm
    · rw [if_neg (not_lt.mpr h3), if_neg (not_lt.mpr h3)]
  · rw [if_neg (not_lt.mpr h2)]
    rw [max_eq_left h2]
    rcases lt_or_le 0 s.current_peak_assets with h3 | h3
    · rw [if_pos h3, if_pos h3]
      split_ifs with h4
      · exact (max_eq_right h4.le).symm
      · exact (max_eq_left (not_lt.mp h4)).symm
    · rw [if_neg (not_lt.mpr h3), if_neg (not_lt.mpr h3)]

/-- The fold of the drawdown loop computes the running maximum of the
per-record drawdowns under the running peak. -/
theorem mdd_fold_dd (l : List MddRecord) (s : MddState) :
    (l.foldl mdd_step s).max_drawdown =
      (ddList s.current_peak_assets (l.map MddRecord.total_assets)).foldl max
        s.max_drawdown := by
  induction l generalizing s with
  | nil => rfl
  | cons r t ih =>
    rw [List.foldl_cons, List.map_cons, ih]
    simp only [ddList]
    by_cases h : 0 < max s.current_peak_assets r.total_assets
    · rw [if_pos h, List.foldl_cons, mdd_step_peak, mdd_step_mdd, if_pos h]
    · rw [if_neg h, mdd_step_peak, mdd_step_mdd, if_neg h]

/-- The fold of the drawdown loop computes the running maximum of all
asset values for the overall peak. -/
theorem mdd_fold_overall (l : List MddRecord) (s : MddState) :
    (l.foldl mdd_step s).overall_max_assets =
      (l.map MddRecord.total_assets).foldl max s.overall_max_assets := by
  induction l generalizing s with
  | nil => rfl
  | cons r t ih =>
    rw [List.foldl_cons, List.map_cons, List.foldl_cons, ih, mdd_step_overall]

/-- C9: `calculate_mdd` makes a single forward pass whose reported
maximum drawdown is the maximum over all records of
(peak − assets)/peak × 100 under the running peak, whose overall peak
value is the maximum asset value seen, which returns the zeroed report
with empty date fields on an empty record list, and whose reported
peak-at-worst-drawdown date can differ from the overall-best peak date
(shown on a concrete four-day sequence, with its trough date and
value). -/
theorem c9_calculate_mdd :
    (∀ recs : List MddRecord,
      (calculate_mdd recs).mdd_percent =
        (ddList 0 (recs.map MddRecord.total_assets)).foldl max 0 ∧
      (calculate_mdd recs).overall_peak_value =
        (recs.map MddRecord.total_assets).foldl max 0 ∧
      (recs = [] → calculate_mdd recs = ⟨0, "", 0, "", "", 0⟩)) ∧
    calculate_mdd c9Example = ⟨50, "d2", 50, "d1", "d3", 200⟩ ∧
    (calculate_mdd c9Example).mdd_peak_date ≠
      (calculate_mdd c9Example).overall_peak_date := by
  have hmain : ∀ recs : List MddRecord,
      (calculate_mdd recs).mdd_percent =
        (ddList 0 (recs.map MddRecord.total_assets)).foldl max 0 ∧
      (calculate_mdd recs).overall_peak_value =
        (recs.map MddRecord.total_assets).foldl max 0 ∧
      (recs = [] → calculate_mdd recs = ⟨0, "", 0, "", "", 0⟩) := by
    intro recs
    by_cases h : recs = []
    · subst h
      exact ⟨rfl, rfl, fun _ => rfl⟩
    · refine ⟨?_, ?_, fun hh => absurd hh h⟩
      · simp only [calculate_mdd, if_neg h]
        exact mdd_fold_dd recs ⟨0, "", "", 0, 0, "", 0, ""⟩
      · simp only [calculate_mdd, if_neg h]
        exact mdd_fold_overall recs ⟨0, "", "", 0, 0, "", 0, ""⟩
  have hstep1 : mdd_step ⟨0, "", "", 0, 0, "", 0, ""⟩ ⟨"d1", 100⟩ =
      ⟨0, "", "", 0, 100, "d1", 100, "d1"⟩ := by
    norm_num [mdd_step, MddState.mk.injEq]
  have hstep2 : mdd_step ⟨0, "", "", 0, 100, "d1", 100, "d1"⟩ ⟨"d2", 50⟩ =
      ⟨50, "d1", "d2", 50, 100, "d1", 100, "d1"⟩ := by
    norm_num [mdd_step, MddState.mk.injEq]
  have hstep3 : mdd_step ⟨50, "d1", "d2", 50, 100, "d1", 100, "d1"⟩ ⟨"d3", 200⟩ =
      ⟨50, "d1", "d2", 50, 200, "d3", 200, "d3"⟩ := by
    norm_num [mdd_step, MddState.mk.injEq]
  have hstep4 : mdd_step ⟨50, "d1", "d2", 50, 200, "d3", 200, "d3"⟩ ⟨"d4", 190⟩ =
      ⟨50, "d1", "d2", 50, 200, "d3", 200, "d3"⟩ := by
    norm_num [mdd_step, MddState.mk.injEq]
  have hne : c9Example ≠ [] := by simp [c9Example]
  have hfold : c9Example.foldl mdd_step ⟨0, "", "", 0, 0, "", 0, ""⟩ =
      ⟨50, "d1", "d2", 50, 200, "d3", 200, "d3"⟩ := by
    show List.foldl mdd_step ⟨0, "", "", 0, 0, "", 0, ""⟩
        [⟨"d1", 100⟩, ⟨"d2", 50⟩, ⟨"d3", 200⟩, ⟨"d4", 190⟩] = _
    rw [List.foldl_cons, hstep1, List.foldl_cons, hstep2, List.foldl_cons, hstep3,
      List.foldl_cons, hstep4, List.foldl_nil]
  have hex : calculate_mdd c9Example = ⟨50, "d2", 50, "d1", "d3", 200⟩ := by
    unfold calculate_mdd
    rw [if_neg hne]
    dsimp only
    rw [hfold]
  refine ⟨hmain, hex, ?_⟩
  rw [hex]
  decide

/-- Witness for C9 at the empty record list. -/
theorem c9_witness : calculate_mdd [] = ⟨0, "", 0, "", "", 0⟩ :=
  (c9_calculate_mdd.1 []).2.2 rfl
